import Mathlib

/-!
# Verification of the Datadog alert documentation generator

This development shallowly embeds the alert ingest / dedup / template /
document pipeline of the repository and proves the specified properties
about it.  JavaScript strings are modelled by `String`, absent-able JS
fields by `Option String` (with `none` for `undefined` and JS truthiness
making the empty string falsy), timestamps by `Nat`, and the file-backed
entity stores by lists threaded through the operations.  External
services (the `uuid` generator, the wall clock, the Handlebars engine
and the `moment` formatting library) are modelled as explicit parameters
of the embedded operations.
-/

/-! ## JavaScript string primitives -/

/-- Whether the second list is a prefix of the first (character lists). -/
def listStartsWith : List Char → List Char → Bool
  | _, [] => true
  | [], _ :: _ => false
  | c :: cs, d :: ds => c = d && listStartsWith cs ds

/-- Whether `n` occurs as a contiguous sublist of `h`.
Models JavaScript `String.prototype.includes`. -/
def listHasSub (h n : List Char) : Bool :=
  match h with
  | [] => listStartsWith [] n
  | c :: t => listStartsWith (c :: t) n || listHasSub t n

/-- JS `s.includes(pat)`. -/
def jsIncludes (s pat : String) : Bool :=
  listHasSub s.data pat.data

/-- JS `s.toLowerCase()` (ASCII case folding suffices for the markers the
code matches on). -/
def strLower (s : String) : String :=
  ⟨s.data.map Char.toLower⟩

/-- Removes the first occurrence of `n` from `h`, leaving the rest
unchanged.  Models JS `h.replace(n, "")` with a string pattern, which
replaces only the first occurrence. -/
def listRemoveFirst (h n : List Char) : List Char :=
  if listStartsWith h n then h.drop n.length
  else
    match h with
    | [] => []
    | c :: t => c :: listRemoveFirst t n

/-- JS `s.replace(pat, "")` with a string pattern. -/
def strRemoveFirst (s pat : String) : String :=
  ⟨listRemoveFirst s.data pat.data⟩

/-- White space for JS `trim` (the characters that occur in payloads). -/
def isJsSpace (c : Char) : Bool :=
  c = ' ' || c = '\t' || c = '\n' || c = '\r'

/-- JS `s.trim()`. -/
def strTrim (s : String) : String :=
  ⟨((s.data.dropWhile isJsSpace).reverse.dropWhile isJsSpace).reverse⟩

/-- JS `s.split('\n')[0]`: everything before the first newline. -/
def strFirstLine (s : String) : String :=
  ⟨s.data.takeWhile (fun c => c != '\n')⟩

/-- JS `s.substring(0, n)`. -/
def strTake (s : String) (n : Nat) : String :=
  ⟨s.data.take n⟩

/-- JS truthiness of an absent-able string field: `undefined` and the
empty string are falsy. -/
def jsTruthy : Option String → Bool
  | none => false
  | some s => s != ""

/-- JS `a || d` for a string field `a` and a fallback literal `d`. -/
def jsOrD (a : Option String) (d : String) : String :=
  match a with
  | some s => if s = "" then d else s
  | none => d

/-- JS `a || b || d` with a final literal fallback. -/
def jsOr2D (a b : Option String) (d : String) : String :=
  jsOrD a (jsOrD b d)

/-- JS `a || b` where both operands are absent-able string fields:
the result is `a` when truthy and `b` (possibly falsy) otherwise. -/
def jsOrOpt (a b : Option String) : Option String :=
  if jsTruthy a then a else b

/-! ## Data model: normalized alerts

`AlertData` carries every field of the alert object that the embedded
code reads.  `originalPayload` (a verbatim echo of the raw JSON used
only for logging/storage) is not modelled; no embedded operation reads
it.  Numeric JSON field values that the code only passes through as
template text (metric values, thresholds) are modelled by their string
rendering. -/

structure AlertData where
  alert_type : Option String := none
  event_type : Option String := none
  title : Option String := none
  event_title : Option String := none
  message : Option String := none
  body : Option String := none
  id : Option String := none
  date : Option Nat := none
  last_updated : Option String := none
  org : Option String := none
  org_name : Option String := none
  org_id : Option String := none
  priority : Option String := none
  status : Option String := none
  alert_transition : Option String := none
  link : Option String := none
  tags : List String := []
  metric_name : Option String := none
  metric : Option String := none
  metric_value : Option String := none
  value : Option String := none
  unit : Option String := none
  threshold : Option String := none
  condition : Option String := none
  hostname : Option String := none
  host : Option String := none
  host_ip : Option String := none
  timestamp : Option String := none
  source : Option String := none
deriving DecidableEq, Repr

/-! ## DocumentGenerator.determinePriority -/

/-- The early-returning keyword cascade inside `determinePriority`:
`some` models a `return`, `none` models falling through to the
alert-type default. -/
def matchPriorityKeywords (p : String) : Option String :=
  if jsIncludes p "critical" || jsIncludes p "high" || jsIncludes p "error" then
    some "high"
  else if jsIncludes p "warning" || jsIncludes p "medium" || jsIncludes p "warn" then
    some "medium"
  else if jsIncludes p "info" || jsIncludes p "low" then
    some "low"
  else
    none

/-- `DocumentGenerator.determinePriority`: the code first evaluates
`alertData.priority || alertData.alert_type` and feeds the result (when
it is a string) through the keyword cascade; only when no keyword
matches does it fall back to the alert-type heuristic, and finally to
`"medium"`. -/
def determinePriority (a : AlertData) : String :=
  let priority := jsOrOpt a.priority a.alert_type
  let fromKeywords :=
    match priority with
    | some pv => matchPriorityKeywords (strLower pv)
    | none => none
  match fromKeywords with
  | some r => r
  | none =>
    let alertType := strLower (jsOrD a.alert_type "")
    if jsIncludes alertType "error" || jsIncludes alertType "critical" then "high"
    else if jsIncludes alertType "warning" || jsIncludes alertType "anomaly" then "medium"
    else "medium"

/-! ## Webhook text-payload normalization (enhanced datadog route) -/

/-- The plain-text branch of `router.post('/datadog')`: classifies the
alert type from markers in the text, takes the first line (with the
`[Triggered]`/`[Recovery]` markers removed and trimmed, or the literal
`"Datadog Alert"` when the first line is empty) as the title, and sets
a priority hint from the presence of `"anomaly"`. -/
def parseTextPayload (timestampIso : String) (text : String) : AlertData :=
  let isAlert := jsIncludes text "[Triggered]" || jsIncludes text "Anomaly Detected"
  let isRecovery := jsIncludes text "Normalized" || jsIncludes text "Recovery"
  let titleLine := jsOrD (some (strFirstLine text)) "Datadog Alert"
  { alert_type := some (if isAlert then "error" else if isRecovery then "recovery" else "info")
    title := some (strTrim (strRemoveFirst (strRemoveFirst titleLine "[Triggered]") "[Recovery]"))
    message := some text
    priority := some (if jsIncludes (strLower text) "anomaly" then "high" else "medium")
    timestamp := some timestampIso
    source := some "datadog_text" }

/-! ## JSON values

A small JSON value type with `JSON.stringify` (compact form, no
spacing), used for the stored `alert_data` of the Netlify document
store and for serializing alert records. -/

inductive Json where
  | null
  | bool (b : Bool)
  | num (n : Int)
  | str (s : String)
  | arr (elems : List Json)
  | obj (fields : List (String × Json))
deriving Repr, BEq

/-- JSON string escaping for the characters that occur in payloads. -/
def escapeChar (c : Char) : List Char :=
  if c = '"' then ['\\', '"']
  else if c = '\\' then ['\\', '\\']
  else if c = '\n' then ['\\', 'n']
  else if c = '\t' then ['\\', 't']
  else if c = '\r' then ['\\', 'r']
  else [c]

/-- Escape a string for inclusion in a JSON literal. -/
def escapeString (s : String) : String :=
  ⟨s.data.foldr (fun c acc => escapeChar c ++ acc) []⟩

mutual

/-- `JSON.stringify` without a spacing argument. -/
def jsonStringify : Json → String
  | .null => "null"
  | .bool b => if b then "true" else "false"
  | .num n => toString n
  | .str s => "\"" ++ escapeString s ++ "\""
  | .arr es => "[" ++ jsonStringifyArr es ++ "]"
  | .obj fs => "\x7b" ++ jsonStringifyObj fs ++ "\x7d"

/-- Comma-separated serialization of an array body. -/
def jsonStringifyArr : List Json → String
  | [] => ""
  | [j] => jsonStringify j
  | j :: rest => jsonStringify j ++ "," ++ jsonStringifyArr rest

/-- Comma-separated serialization of the fields of an object body. -/
def jsonStringifyObj : List (String × Json) → String
  | [] => ""
  | [(k, v)] => "\"" ++ escapeString k ++ "\":" ++ jsonStringify v
  | (k, v) :: rest =>
      "\"" ++ escapeString k ++ "\":" ++ jsonStringify v ++ "," ++ jsonStringifyObj rest

end

/-- A present string field as a singleton JSON object fragment;
`undefined` fields are skipped by `JSON.stringify`. -/
def optField (k : String) : Option String → List (String × Json)
  | none => []
  | some s => [(k, .str s)]

/-- Renders an `AlertData` record as a JSON object over its present
fields.  The original raw-JSON key insertion order is not recoverable in
the shallow embedding, so fields follow the declaration order of
`AlertData`; nothing proved depends on that order. -/
def alertDataJson (a : AlertData) : Json :=
  .obj (optField "alert_type" a.alert_type ++ optField "event_type" a.event_type ++
    optField "title" a.title ++ optField "event_title" a.event_title ++
    optField "message" a.message ++ optField "body" a.body ++
    optField "id" a.id ++
    (match a.date with | none => [] | some d => [("date", .num d)]) ++
    optField "last_updated" a.last_updated ++ optField "org" a.org ++
    optField "org_name" a.org_name ++ optField "org_id" a.org_id ++
    optField "priority" a.priority ++ optField "status" a.status ++
    optField "alert_transition" a.alert_transition ++ optField "link" a.link ++
    (if a.tags.isEmpty then [] else [("tags", .arr (a.tags.map .str))]) ++
    optField "metric_name" a.metric_name ++ optField "metric" a.metric ++
    optField "metric_value" a.metric_value ++ optField "value" a.value ++
    optField "unit" a.unit ++ optField "threshold" a.threshold ++
    optField "condition" a.condition ++ optField "hostname" a.hostname ++
    optField "host" a.host ++ optField "host_ip" a.host_ip ++
    optField "timestamp" a.timestamp ++ optField "source" a.source)

/-- `JSON.stringify(payload)` applied to an alert record. -/
def stringifyAlertData (a : AlertData) : String :=
  jsonStringify (alertDataJson a)

/-! ## Webhook ingest (enhanced datadog route) -/

/-- The raw HTTP body as seen by the route after body parsing: a plain
string, a JSON object, or anything else (`null`, numbers, booleans),
which the route rejects. -/
inductive Payload where
  | text (s : String)
  | json (p : AlertData)
  | invalid
deriving Repr

/-- The JSON branch of `router.post('/datadog')`: builds the normalized
alert object with field-name aliasing and defaults.  Only the listed
fields are set (in particular `event_title` is not carried over). -/
def parseJsonPayload (timestampIso : String) (p : AlertData) : AlertData :=
  { alert_type := some (jsOr2D p.event_type p.alert_type "info")
    title := some (jsOr2D p.title p.event_title "Datadog Alert")
    message := some (jsOr2D p.body p.message (stringifyAlertData p))
    id := p.id
    date := p.date
    last_updated := p.last_updated
    org := p.org
    priority := some "medium"
    timestamp := some timestampIso
    source := some "datadog_json" }

/-- The post-branch guard `if (!alert.title && !alert.message)` that
installs the default title. -/
def ensureTitle (a : AlertData) : AlertData :=
  if !jsTruthy a.title && !jsTruthy a.message then
    { a with title := some "Datadog Alert" }
  else a

/-- The body handling of `router.post('/datadog')`: text payloads are
heuristically parsed, JSON objects are normalized, anything else is
rejected with the invalid-payload error. -/
def parseWebhookBody (timestampIso : String) (body : Payload) : Except String AlertData :=
  match body with
  | .text s => .ok (ensureTitle (parseTextPayload timestampIso s))
  | .json p => .ok (ensureTitle (parseJsonPayload timestampIso p))
  | .invalid => .error "Invalid webhook payload"

/-! ## Deduplication fingerprint -/

/-- The data hashed by `generateAlertHash`.  The JS computes the MD5
digest of the sorted-key `JSON.stringify` of exactly this record; that
serialization is injective on the record, and the digest is a fixed
deterministic function of it, so the fingerprint is modelled by the
record itself: two fingerprints are equal exactly when the hashed data
is equal (MD5 collisions are idealized away). -/
structure HashData where
  alert_type : Option String
  title : String
  timeWindow : Nat
  org : Option String
  id : Option String
deriving DecidableEq, Repr

/-- `generateAlertHash`: alert type, resolved title (`title ||
event_title || 'untitled'`), the 5-minute time bucket, and `org`/`id`
only when truthy. -/
def generateAlertHash (timeWindow : Nat) (a : AlertData) : HashData :=
  { alert_type := a.alert_type
    title := jsOr2D a.title a.event_title "untitled"
    timeWindow := timeWindow
    org := if jsTruthy a.org then a.org else none
    id := if jsTruthy a.id then a.id else none }

/-- The 5-minute bucket of a millisecond clock value:
`Math.floor(Date.now() / (1000 * 60 * 5))`. -/
def timeBucket (nowMs : Nat) : Nat :=
  nowMs / (1000 * 60 * 5)

/-! ## Pending alerts -/

/-- An entry of the in-memory `pendingAlerts` map keyed by alert id.
`processedAt`/`documentId` are `null` while the alert is pending. -/
structure PendingAlert where
  id : String
  timestamp : String
  alertHash : HashData
  originalPayload : AlertData
  status : String
  processedAt : Option String := none
  documentId : Option String := none
deriving DecidableEq, Repr

/-- `Map.prototype.set` on the pending map (modelled as a list in
insertion order): replaces in place when the key exists, appends
otherwise. -/
def mapSet (st : List PendingAlert) (p : PendingAlert) : List PendingAlert :=
  if st.any (fun q => q.id == p.id) then
    st.map (fun q => if q.id == p.id then p else q)
  else st ++ [p]

/-- The response body of a successful ingest. -/
structure IngestResponse where
  alertId : String
  duplicate : Bool
deriving DecidableEq, Repr

/-- The dedup-and-store step of `router.post('/datadog')`: if some
pending alert already carries the fingerprint, answer with its id and
`duplicate = true` without touching the map; otherwise store a new
pending entry under a fresh uuid. -/
def webhookDedupStore (timeWindow : Nat) (freshId timestampIso : String)
    (st : List PendingAlert) (alert : AlertData) :
    List PendingAlert × IngestResponse :=
  let alertHash := generateAlertHash timeWindow alert
  match st.find? (fun a => a.alertHash == alertHash) with
  | some existing => (st, { alertId := existing.id, duplicate := true })
  | none =>
      let alertData : PendingAlert :=
        { id := freshId
          timestamp := timestampIso
          alertHash := alertHash
          originalPayload := alert
          status := "pending_template_selection" }
      (mapSet st alertData, { alertId := freshId, duplicate := false })

/-- Full ingest: body parsing followed by dedup-and-store.  `timeWindow`
is the current 5-minute bucket, `freshId` the uuid the route would
generate, `timestampIso` the current ISO clock reading. -/
def webhookIngest (timeWindow : Nat) (freshId timestampIso : String)
    (st : List PendingAlert) (body : Payload) :
    Except String (List PendingAlert × IngestResponse) :=
  match parseWebhookBody timestampIso body with
  | .error e => .error e
  | .ok alert => .ok (webhookDedupStore timeWindow freshId timestampIso st alert)

/-! ## Templates -/

/-- A stored template (the JSON file written by the template routes).
The upload-specific metadata (`originalFilename`, `fileSize`) of the
upload route is not modelled; no claim concerns the upload route.
Timestamps are modelled as `Nat` clock readings (ISO strings are
order-isomorphic to the instants they render). -/
structure Template where
  id : String
  name : String
  description : String
  category : String
  content : String
  createdAt : Nat
  updatedAt : Nat
  usageCount : Nat
  lastUsed : Option Nat := none
deriving DecidableEq, Repr

/-- `router.post('/')` of the template routes: create from text content.
`name` and `content` must be truthy; `category` defaults to
`"general"` only when absent (JS destructuring default). -/
def createTemplate (freshId : String) (now : Nat)
    (name description category content : Option String) :
    Except String Template :=
  if !jsTruthy name || !jsTruthy content then
    .error "Missing required fields"
  else
    .ok { id := freshId
          name := strTrim (name.getD "")
          description := strTrim (description.getD "")
          category := strTrim (category.getD "general")
          content := strTrim (content.getD "")
          createdAt := now
          updatedAt := now
          usageCount := 0 }

/-- The JS update idiom `field?.trim() || existing.field`: an absent,
empty or whitespace-only request value keeps the stored value. -/
def jsUpdateField (old : String) (incoming : Option String) : String :=
  match incoming with
  | none => old
  | some s => if strTrim s = "" then old else strTrim s

/-- The field merge of `router.put('/:templateId')` on an existing
template: partial update of name/description/category/content with the
falsy-keeps-existing idiom, every other stored field spread through
unchanged, and `updatedAt` refreshed. -/
def updateTemplateFields (t : Template) (now : Nat)
    (name description category content : Option String) : Template :=
  { t with
    name := jsUpdateField t.name name
    description := jsUpdateField t.description description
    category := jsUpdateField t.category category
    content := jsUpdateField t.content content
    updatedAt := now }

/-- `router.put('/:templateId')` at the store level: 404 when the id
has no stored template, otherwise rewrite the merged template. -/
def updateTemplateRoute (ts : List Template) (tid : String) (now : Nat)
    (name description category content : Option String) :
    Except String (List Template × Template) :=
  match ts.find? (fun t => t.id == tid) with
  | none => .error "Template not found"
  | some existing =>
      let updated := updateTemplateFields existing now name description category content
      .ok (ts.map (fun t => if t.id == tid then updated else t), updated)

/-! ## Render context (DocumentGenerator.prepareTemplateContext) -/

/-- JS `a || b` on plain strings: the first operand when non-empty. -/
def jsOrS (a b : String) : String :=
  if a = "" then b else a

/-- `extractTag`: first tag of the shape `key:value`, split at `:`. -/
def listSplitOnChar (sep : Char) : List Char → List (List Char)
  | [] => [[]]
  | c :: t =>
    let rest := listSplitOnChar sep t
    if c = sep then [] :: rest
    else
      match rest with
      | [] => [[c]]
      | h :: r => (c :: h) :: r

/-- `DocumentGenerator.extractTag`: scans the tag list for an entry
starting with `key:` and returns the segment after the first colon
(JS `tag.split(':')[1]`), else the empty string. -/
def extractTag (tags : List String) (key : String) : String :=
  match tags.find? (fun tag => listStartsWith tag.data (key.data ++ [':'])) with
  | some tag => ⟨(listSplitOnChar ':' tag.data).getD 1 []⟩
  | none => ""

/-- The alert-identity group of the render context. -/
structure CtxAlert where
  id : String
  type : String
  title : String
  message : String
  priority : String
  status : String
  url : String
  tags : List String
deriving DecidableEq, Repr

/-- The timing group of the render context.  `triggered` holds the
instant (the JS keeps a `moment` object; only its formatted renderings
reach templates). -/
structure CtxTime where
  triggered : Nat
  formatted : String
  iso : String
  unix : Nat
  relative : String
deriving DecidableEq, Repr

/-- The metric group of the render context. -/
structure CtxMetric where
  name : String
  value : String
  unit : String
  threshold : String
  condition : String
deriving DecidableEq, Repr

/-- The host/service group of the render context. -/
structure CtxHost where
  name : String
  ip : String
  environment : String
  service : String
  team : String
  region : String
deriving DecidableEq, Repr

/-- The organization group of the render context. -/
structure CtxOrg where
  name : String
  id : String
deriving DecidableEq, Repr

/-- The generation-metadata group (`atTime` models the source key `at`,
`producedBy` the source key `by`; both are Lean keywords). -/
structure CtxGenerated where
  atTime : String
  formatted : String
  producedBy : String
deriving DecidableEq, Repr

/-- The render context handed to the template engine. -/
structure RenderContext where
  alert : CtxAlert
  time : CtxTime
  metric : CtxMetric
  host : CtxHost
  org : CtxOrg
  raw : AlertData
  generated : CtxGenerated
deriving DecidableEq, Repr

/-- The `moment` formatting library, modelled as explicit renderers:
`fmt` is `format('MMMM Do YYYY, h:mm:ss a')`, `iso` is `toISOString()`,
`rel` is `fromNow()`, `fmtShort` is `format('YYYY-MM-DD HH:mm')`. -/
structure MomentLib where
  fmt : Nat → String
  iso : Nat → String
  rel : Nat → String
  fmtShort : Nat → String

/-- `DocumentGenerator.prepareTemplateContext`: the pure derivation of
the render context from a normalized alert and the current time.  The
JS re-tests `alertData.date` (truthy, so a zero timestamp counts as
absent) for each timing field; all five agree, so the test is hoisted. -/
def prepareTemplateContext (lib : MomentLib) (now : Nat) (a : AlertData) : RenderContext :=
  let dateVal : Option Nat :=
    match a.date with
    | some d => if d = 0 then none else some d
    | none => none
  { alert :=
      { id := jsOrD a.id "unknown"
        type := jsOrD a.alert_type "unknown"
        title := jsOrD a.title "Untitled Alert"
        message := jsOr2D a.body a.message ""
        priority := determinePriority a
        status := jsOr2D a.alert_transition a.status "unknown"
        url := jsOrD a.link ""
        tags := a.tags }
    time :=
      match dateVal with
      | some d =>
          { triggered := d, formatted := lib.fmt d, iso := lib.iso d
            unix := d, relative := lib.rel d }
      | none =>
          { triggered := now, formatted := lib.fmt now, iso := lib.iso now
            unix := now, relative := "now" }
    metric :=
      { name := jsOr2D a.metric_name a.metric ""
        value := jsOr2D a.metric_value a.value ""
        unit := jsOrD a.unit ""
        threshold := jsOrD a.threshold ""
        condition := jsOrD a.condition "" }
    host :=
      { name := jsOr2D a.hostname a.host ""
        ip := jsOrD a.host_ip ""
        environment := jsOrS (extractTag a.tags "env") (extractTag a.tags "environment")
        service := extractTag a.tags "service"
        team := extractTag a.tags "team"
        region := extractTag a.tags "region" }
    org := { name := jsOrD a.org_name "", id := jsOrD a.org_id "" }
    raw := a
    generated :=
      { atTime := lib.iso now
        formatted := lib.fmt now
        producedBy := "Datadog Alert Documentation Generator" } }

/-! ## Document generation -/

/-- A stored document (`DocumentGenerator.generateDocument`). -/
structure DocumentRec where
  id : String
  title : String
  content : String
  alertType : String
  priority : String
  status : String
  templateId : String
  templateName : String
  originalAlert : AlertData
  createdAt : Nat
  updatedAt : Nat
deriving DecidableEq, Repr

/-- The Handlebars compile-and-apply step, modelled as a function that
either produces the rendered text or the message of the thrown
template-compile error. -/
def TemplateEngine : Type :=
  String → RenderContext → Except String String

/-- `DocumentGenerator.generateDocumentTitle`:
`(title || message || 'Alert Documentation') - <current date>`. -/
def generateDocumentTitle (lib : MomentLib) (now : Nat) (a : AlertData) : String :=
  jsOr2D a.title a.message "Alert Documentation" ++ " - " ++ lib.fmtShort now

/-- `DocumentGenerator.loadTemplate`: the template file addressed by id. -/
def loadTemplate (ts : List Template) (tid : String) : Option Template :=
  ts.find? (fun t => t.id == tid)

/-- `DocumentGenerator.updateTemplateUsage`: when the template exists,
increment `usageCount` (absent counts read as `0`) and stamp
`lastUsed`; silently do nothing otherwise. -/
def updateTemplateUsage (tid : String) (now : Nat) (ts : List Template) : List Template :=
  ts.map (fun t =>
    if t.id == tid then { t with usageCount := t.usageCount + 1, lastUsed := some now }
    else t)

/-- The template/document portion of the server state. -/
structure SysState where
  templates : List Template
  documents : List DocumentRec
deriving Repr

/-- `DocumentGenerator.generateDocument`: look up the template (fail
when absent), build the context, render (propagating an engine error),
persist the document and bump the template usage. -/
def generateDocument (engine : TemplateEngine) (lib : MomentLib) (now : Nat)
    (docId : String) (st : SysState) (alertData : AlertData) (templateId : String) :
    Except String (SysState × DocumentRec) :=
  match loadTemplate st.templates templateId with
  | none => .error ("Template with ID " ++ templateId ++ " not found")
  | some template =>
    let context := prepareTemplateContext lib now alertData
    match engine template.content context with
    | .error e => .error e
    | .ok renderedContent =>
      let document : DocumentRec :=
        { id := docId
          title := generateDocumentTitle lib now alertData
          content := renderedContent
          alertType := jsOrD alertData.alert_type "unknown"
          priority := determinePriority alertData
          status := "generated"
          templateId := templateId
          templateName := template.name
          originalAlert := alertData
          createdAt := now
          updatedAt := now }
      .ok ({ templates := updateTemplateUsage templateId now st.templates
             documents := st.documents ++ [document] },
           document)

/-- The result object of `DocumentGenerator.previewTemplate`. -/
structure PreviewResult where
  success : Bool
  content : Option String
  error : Option String
  context : Option RenderContext

/-- `DocumentGenerator.previewTemplate`: render without saving.  The
state is threaded to make the absence of side effects a stated fact;
the method performs no store writes. -/
def previewTemplate (engine : TemplateEngine) (lib : MomentLib) (now : Nat)
    (st : SysState) (templateContent : String) (alertData : AlertData) :
    SysState × PreviewResult :=
  let context := prepareTemplateContext lib now alertData
  match engine templateContent context with
  | .ok renderedContent =>
      (st, { success := true, content := some renderedContent
             error := none, context := some context })
  | .error e =>
      (st, { success := false, content := none
             error := some e, context := none })

/-! ## The full server state and the webhook routes -/

/-- The mutable state of the server: the in-memory pending map plus the
file-backed template and document stores. -/
structure ServerState where
  pending : List PendingAlert
  sys : SysState

/-- `router.post('/datadog')` at the state level. -/
def ingestRoute (timeWindow : Nat) (freshId timestampIso : String)
    (s : ServerState) (body : Payload) : ServerState × Except String IngestResponse :=
  match webhookIngest timeWindow freshId timestampIso s.pending body with
  | .error e => (s, .error e)
  | .ok (pending2, resp) => ({ s with pending := pending2 }, .ok resp)

/-- `router.post('/process/:alertId')`: require a truthy template id,
find the pending alert (404 otherwise), generate the document (an
error leaves the pending map untouched), then mark processed and
remove the alert from the pending map.  Returns the new document id. -/
def processRoute (engine : TemplateEngine) (lib : MomentLib) (now : Nat)
    (docId : String) (s : ServerState) (alertId : String)
    (templateId : Option String) : ServerState × Except String String :=
  if !jsTruthy templateId then
    (s, .error "Template ID is required")
  else
    match s.pending.find? (fun a => a.id == alertId) with
    | none => (s, .error "Alert not found")
    | some alertData =>
      match generateDocument engine lib now docId s.sys
          alertData.originalPayload (templateId.getD "") with
      | .error e => (s, .error e)
      | .ok (sys2, doc) =>
          ({ pending := s.pending.filter (fun a => a.id != alertId), sys := sys2 },
           .ok doc.id)

/-! ## Document search -/

/-- A search result entry of `router.get('/search/:query')`. -/
structure SearchHit where
  id : String
  title : String
  alertType : String
  templateName : String
  createdAt : Nat
  priority : String
  status : String
  snippet : String
deriving DecidableEq, Repr

/-- Insert into a list sorted newest-first by `createdAt`. -/
def insertByCreatedDesc (h : SearchHit) : List SearchHit → List SearchHit
  | [] => [h]
  | x :: xs =>
      if x.createdAt ≤ h.createdAt then h :: x :: xs
      else x :: insertByCreatedDesc h xs

/-- The newest-first sort of the matching documents.  The JS comparator
sort is modelled by an insertion sort with the same ordering; the
membership facts proved below are independent of the sorting
algorithm. -/
def sortByCreatedDesc (l : List SearchHit) : List SearchHit :=
  l.foldr insertByCreatedDesc []

/-- `router.get('/search/:query')` of the server document routes:
case-insensitive substring match of the query against
`title content alertType` (space-joined), with a snippet of the first
200 characters of the content plus an ellipsis, sorted newest first. -/
def searchDocuments (docs : List DocumentRec) (query : String) : List SearchHit :=
  let searchTerm := strLower query
  let hits := (docs.filter (fun d =>
      jsIncludes (strLower (d.title ++ " " ++ d.content ++ " " ++ d.alertType)) searchTerm)).map
    (fun d =>
      { id := d.id, title := d.title, alertType := d.alertType
        templateName := d.templateName, createdAt := d.createdAt
        priority := d.priority, status := d.status
        snippet := strTake d.content 200 ++ "..." })
  sortByCreatedDesc hits

/-- A document of the Netlify flat-file document store. -/
structure NetlifyDoc where
  id : String
  title : String
  content : String
  template_id : Option String := none
  alert_data : Option Json := none
  created_at : Nat := 0
  updated_at : Nat := 0
deriving Repr, BEq

/-- JS truthiness of a JSON value. -/
def jsonTruthy : Json → Bool
  | .null => false
  | .bool b => b
  | .num n => n != 0
  | .str s => s != ""
  | .arr _ => true
  | .obj _ => true

/-- The `?search=` filter of the Netlify documents function:
case-insensitive substring match of the query against the title, the
content, or (when `alert_data` is truthy) its `JSON.stringify`; the
matching documents are returned as stored, with no snippet field. -/
def netlifySearchDocs (docs : List NetlifyDoc) (query : String) : List NetlifyDoc :=
  let searchTerm := strLower query
  docs.filter (fun doc =>
    jsIncludes (strLower doc.title) searchTerm ||
    jsIncludes (strLower doc.content) searchTerm ||
    (match doc.alert_data with
     | some j => jsonTruthy j && jsIncludes (strLower (jsonStringify j)) searchTerm
     | none => false))

/-! ## Spec-side definitions

These definitions follow the wording of the specification claims (not
the source) and exist only to be compared against the embedded code. -/

/-- The priority rule as the claim words it: match keywords in the
explicit priority field only when it is present; when it is absent go
straight to the alertType error/critical/warning/anomaly fallback and
the final `"medium"` default. -/
def specClaimPriority (a : AlertData) : String :=
  let fromKeywords :=
    match a.priority with
    | some pv => matchPriorityKeywords (strLower pv)
    | none => none
  match fromKeywords with
  | some r => r
  | none =>
    let alertType := strLower (jsOrD a.alert_type "")
    if jsIncludes alertType "error" || jsIncludes alertType "critical" then "high"
    else if jsIncludes alertType "warning" || jsIncludes alertType "anomaly" then "medium"
    else "medium"

/-- The amended priority rule: the string `priority || alert_type`
(the alertType standing in whenever the priority field is absent or
empty) goes through the keyword cascade first; only when no keyword
matches do the alertType fallback and the default apply. -/
def specAmendedPriority (a : AlertData) : String :=
  let keyword :=
    if jsTruthy a.priority then matchPriorityKeywords (strLower (a.priority.getD ""))
    else
      match a.alert_type with
      | some t => matchPriorityKeywords (strLower t)
      | none => none
  match keyword with
  | some r => r
  | none =>
    let alertType := strLower (jsOrD a.alert_type "")
    if jsIncludes alertType "error" || jsIncludes alertType "critical" then "high"
    else if jsIncludes alertType "warning" || jsIncludes alertType "anomaly" then "medium"
    else "medium"

/-- The title rule as the claim words it: the first line of the text
with the `[Triggered]`/`[Recovery]` markers removed and whitespace
trimmed. -/
def specClaimTextTitle (text : String) : String :=
  strTrim (strRemoveFirst (strRemoveFirst (strFirstLine text) "[Triggered]") "[Recovery]")

/-- The search-match rule as the claim words it: the lowercased query
is a substring of the title, the content, or a JSON-serialized
rendering of the document's source alert (case-insensitive). -/
def specClaimSearchMatch (d : DocumentRec) (query : String) : Bool :=
  jsIncludes (strLower d.title) (strLower query) ||
  jsIncludes (strLower d.content) (strLower query) ||
  jsIncludes (strLower (stringifyAlertData d.originalAlert)) (strLower query)

/-- Well-formedness of the pending map: ids pairwise distinct (it is a
`Map` keyed by id) and fingerprints pairwise distinct. -/
def PendingWF (st : List PendingAlert) : Prop :=
  st.Pairwise (fun a b => a.id ≠ b.id ∧ a.alertHash ≠ b.alertHash)

/-- One request handled by the webhook router: an ingest or a process
call, with the clock, uuid and rendering environment of that request
chosen arbitrarily. -/
inductive ServerStep : ServerState → ServerState → Prop where
  | ingest (tw : Nat) (freshId tsIso : String) (body : Payload) (s : ServerState) :
      ServerStep s (ingestRoute tw freshId tsIso s body).1
  | process (engine : TemplateEngine) (lib : MomentLib) (now : Nat)
      (docId alertId : String) (templateId : Option String) (s : ServerState) :
      ServerStep s (processRoute engine lib now docId s alertId templateId).1

/-- States reachable from `init` by webhook requests. -/
def ServerReachable (init s : ServerState) : Prop :=
  Relation.ReflTransGen ServerStep init s

/-- C2 counterexample: an alert with no priority field and
alertType `"info"` (which contains none of error/critical/warning/
anomaly) is claimed to yield `"medium"`, but the code substitutes the
alertType into the priority keyword cascade and returns `"low"`. -/
theorem determinePriority_info_counterexample :
    specClaimPriority { alert_type := some "info" } = "medium" ∧
    determinePriority { alert_type := some "info" } = "low" ∧
    determinePriority { alert_type := some "info" } ≠
      specClaimPriority { alert_type := some "info" } := by
  decide

/-- C2 (amended): for every normalized alert the derived priority
equals the amended rule, in which `priority || alert_type` feeds the
keyword cascade (so an absent priority lets the alertType match
info/low → low, medium/warn → medium, high → high first), with the
alertType error/critical/warning/anomaly fallback and the `"medium"`
default afterwards. -/
theorem determinePriority_amended (a : AlertData) :
    determinePriority a = specAmendedPriority a := by
  unfold determinePriority specAmendedPriority jsOrOpt jsTruthy
  cases hp : a.priority with
  | none => simp
  | some s =>
      by_cases hs : s = "" <;> simp [hs]

/-- C3 counterexample: on a payload whose first line is empty the code
substitutes the default title `"Datadog Alert"` before stripping, while
the claimed rule produces the empty title. -/
theorem parseTextPayload_title_counterexample :
    (parseTextPayload "ts" "\nAnomaly Detected").title = some "Datadog Alert" ∧
    specClaimTextTitle "\nAnomaly Detected" = "" ∧
    (parseTextPayload "ts" "\nAnomaly Detected").title ≠
      some (specClaimTextTitle "\nAnomaly Detected") := by
  decide

/-- C3 (amended): text normalization classifies the alertType as
`"error"` exactly when the text contains `"[Triggered]"` or
`"Anomaly Detected"`, else `"recovery"` exactly when it contains
`"Normalized"` or `"Recovery"`, else `"info"`; the title is the first
line with the markers removed and trimmed, except that an empty first
line yields the default `"Datadog Alert"`; and the priority hint is
`"high"` exactly when the lowercased text contains `"anomaly"`, else
`"medium"`. -/
theorem parseTextPayload_amended (ts text : String) :
    ((parseTextPayload ts text).alert_type = some "error" ↔
      (jsIncludes text "[Triggered]" || jsIncludes text "Anomaly Detected") = true) ∧
    ((parseTextPayload ts text).alert_type = some "recovery" ↔
      ((jsIncludes text "[Triggered]" || jsIncludes text "Anomaly Detected") = false ∧
       (jsIncludes text "Normalized" || jsIncludes text "Recovery") = true)) ∧
    ((parseTextPayload ts text).alert_type = some "info" ↔
      ((jsIncludes text "[Triggered]" || jsIncludes text "Anomaly Detected") = false ∧
       (jsIncludes text "Normalized" || jsIncludes text "Recovery") = false)) ∧
    ((parseTextPayload ts text).title =
      some (if strFirstLine text = "" then "Datadog Alert" else specClaimTextTitle text)) ∧
    ((parseTextPayload ts text).priority = some "high" ↔
      jsIncludes (strLower text) "anomaly" = true) ∧
    ((parseTextPayload ts text).priority = some "medium" ↔
      jsIncludes (strLower text) "anomaly" = false) := by
  refine ⟨?_, ?_, ?_, ?_, ?_, ?_⟩ <;>
    simp only [parseTextPayload, jsOrD, specClaimTextTitle]
  · cases h1 : (jsIncludes text "[Triggered]" || jsIncludes text "Anomaly Detected") <;>
      cases h2 : (jsIncludes text "Normalized" || jsIncludes text "Recovery") <;>
      simp [h1, h2]
  · cases h1 : (jsIncludes text "[Triggered]" || jsIncludes text "Anomaly Detected") <;>
      cases h2 : (jsIncludes text "Normalized" || jsIncludes text "Recovery") <;>
      simp [h1, h2]
  · cases h1 : (jsIncludes text "[Triggered]" || jsIncludes text "Anomaly Detected") <;>
      cases h2 : (jsIncludes text "Normalized" || jsIncludes text "Recovery") <;>
      simp [h1, h2]
  · by_cases hfl : strFirstLine text = "" <;> simp [hfl]
    decide
  · cases h3 : jsIncludes (strLower text) "anomaly" <;> simp [h3]
  · cases h3 : jsIncludes (strLower text) "anomaly" <;> simp [h3]

/-- C4: ingest fails with the invalid-payload error exactly when the
body is neither a JSON object nor a string; a structured payload always
determines a truthy alertType (so the claim's "no alertType can be
determined" disjunct never fires), and when both `event_type` and
`alert_type` are absent or empty the alertType defaults to `"info"`. -/
theorem parseWebhookBody_invalid_iff (ts : String) :
    (∀ body : Payload, (∃ e, parseWebhookBody ts body = .error e) ↔ body = Payload.invalid) ∧
    (∀ p a, parseWebhookBody ts (.json p) = .ok a → jsTruthy a.alert_type = true) ∧
    (∀ p a, jsTruthy p.event_type = false → jsTruthy p.alert_type = false →
      parseWebhookBody ts (.json p) = .ok a → a.alert_type = some "info") := by
  refine ⟨?_, ?_, ?_⟩
  · intro body
    cases body with
    | text s => simp [parseWebhookBody]
    | json p => simp [parseWebhookBody]
    | invalid => exact ⟨fun _ => rfl, fun _ => ⟨"Invalid webhook payload", rfl⟩⟩
  · intro p a h
    simp only [parseWebhookBody, Except.ok.injEq] at h
    subst h
    have htype : (parseJsonPayload ts p).alert_type =
        some (jsOr2D p.event_type p.alert_type "info") := rfl
    have : jsTruthy (parseJsonPayload ts p).alert_type = true := by
      rw [htype]
      cases he : p.event_type with
      | none =>
          cases ha : p.alert_type with
          | none => simp [jsOr2D, jsOrD, jsTruthy]
          | some s =>
              by_cases hs : s = "" <;> simp [jsOr2D, jsOrD, jsTruthy, hs]
      | some s =>
          by_cases hs : s = ""
          · cases ha : p.alert_type with
            | none => simp [jsOr2D, jsOrD, jsTruthy, hs]
            | some t => by_cases ht : t = "" <;> simp [jsOr2D, jsOrD, jsTruthy, hs, ht]
          · simp [jsOr2D, jsOrD, jsTruthy, hs]
    unfold ensureTitle
    by_cases hcond :
        (!jsTruthy (parseJsonPayload ts p).title && !jsTruthy (parseJsonPayload ts p).message) = true <;>
      simp [hcond, this]
  · intro p a he ha h
    simp only [parseWebhookBody, Except.ok.injEq] at h
    subst h
    have htype : (parseJsonPayload ts p).alert_type = some "info" := by
      show some (jsOr2D p.event_type p.alert_type "info") = some "info"
      cases hpe : p.event_type with
      | none =>
          cases hpa : p.alert_type with
          | none => simp [jsOr2D, jsOrD]
          | some s =>
              rw [hpa] at ha
              simp [jsTruthy] at ha
              simp [jsOr2D, jsOrD, ha]
      | some s =>
          rw [hpe] at he
          simp [jsTruthy] at he
          cases hpa : p.alert_type with
          | none => simp [jsOr2D, jsOrD, he]
          | some t =>
              rw [hpa] at ha
              simp [jsTruthy] at ha
              simp [jsOr2D, jsOrD, he, ha]
    unfold ensureTitle
    by_cases hcond :
        (!jsTruthy (parseJsonPayload ts p).title && !jsTruthy (parseJsonPayload ts p).message) = true <;>
      simp [hcond, htype]

/-- C4 witness: the concrete evaluations backing the hypotheses — the
empty JSON object ingests successfully with alertType `"info"`, and a
non-JSON, non-string body fails. -/
theorem parseWebhookBody_invalid_iff_witness :
    (∃ e, parseWebhookBody "t" Payload.invalid = .error e) ∧
    (∃ a, parseWebhookBody "t" (.json {}) = .ok a ∧ a.alert_type = some "info") := by
  have h := parseWebhookBody_invalid_iff "t"
  refine ⟨(h.1 Payload.invalid).mpr rfl, ?_⟩
  cases hp : parseWebhookBody "t" (.json {}) with
  | error e =>
      exact absurd ((h.1 (.json {})).mp ⟨e, hp⟩) (by simp)
  | ok a =>
      exact ⟨a, rfl, h.2.2 {} a (by decide) (by decide) hp⟩

/-- C10: template update is partial — an absent, empty or
whitespace-only value for name/description/category/content keeps the
stored value (so a non-empty description can never be cleared), the
other stored fields (id, createdAt, usageCount, lastUsed) pass through
unchanged, `updatedAt` is always refreshed, and the route merges
exactly these fields into the stored template it found. -/
theorem updateTemplate_partial (t : Template) (now : Nat)
    (nm ds cat ct : Option String) :
    (updateTemplateFields t now nm ds cat ct).id = t.id ∧
    (updateTemplateFields t now nm ds cat ct).createdAt = t.createdAt ∧
    (updateTemplateFields t now nm ds cat ct).usageCount = t.usageCount ∧
    (updateTemplateFields t now nm ds cat ct).lastUsed = t.lastUsed ∧
    (updateTemplateFields t now nm ds cat ct).updatedAt = now ∧
    ((nm = none ∨ ∃ s, nm = some s ∧ strTrim s = "") →
      (updateTemplateFields t now nm ds cat ct).name = t.name) ∧
    ((ds = none ∨ ∃ s, ds = some s ∧ strTrim s = "") →
      (updateTemplateFields t now nm ds cat ct).description = t.description) ∧
    ((cat = none ∨ ∃ s, cat = some s ∧ strTrim s = "") →
      (updateTemplateFields t now nm ds cat ct).category = t.category) ∧
    ((ct = none ∨ ∃ s, ct = some s ∧ strTrim s = "") →
      (updateTemplateFields t now nm ds cat ct).content = t.content) ∧
    ((updateTemplateFields t now nm ds cat ct).description = "" →
      t.description = "") ∧
    (∀ ts : List Template, ts.find? (fun x => x.id == t.id) = some t →
      updateTemplateRoute ts t.id now nm ds cat ct =
        .ok (ts.map (fun x => if x.id == t.id then updateTemplateFields t now nm ds cat ct else x),
             updateTemplateFields t now nm ds cat ct)) := by
  have hfield : ∀ old incoming,
      (incoming = none ∨ ∃ s, incoming = some s ∧ strTrim s = "") →
      jsUpdateField old incoming = old := by
    intro old incoming h
    rcases h with h | ⟨s, rfl, hs⟩
    · simp [h, jsUpdateField]
    · simp [jsUpdateField, hs]
  have hkeep : ∀ old incoming, jsUpdateField old incoming = "" → old = "" := by
    intro old incoming h
    cases incoming with
    | none => exact h
    | some s =>
        by_cases hs : strTrim s = ""
        · simpa [jsUpdateField, hs] using h
        · simp [jsUpdateField, hs] at h
  refine ⟨rfl, rfl, rfl, rfl, rfl, ?_, ?_, ?_, ?_, ?_, ?_⟩
  · intro h; exact hfield t.name nm h
  · intro h; exact hfield t.description ds h
  · intro h; exact hfield t.category cat h
  · intro h; exact hfield t.content ct h
  · intro h; exact hkeep t.description ds h
  · intro ts hfind
    simp [updateTemplateRoute, hfind]

/-- C10 witness: updating a concrete template with a whitespace-only
description and no content keeps both and refreshes `updatedAt`. -/
theorem updateTemplate_partial_witness :
    (updateTemplateFields
        { id := "t1", name := "N", description := "D", category := "general"
          content := "C", createdAt := 1, updatedAt := 1, usageCount := 4 }
        9 (some "New") (some "  ") none none).description = "D" ∧
    (updateTemplateFields
        { id := "t1", name := "N", description := "D", category := "general"
          content := "C", createdAt := 1, updatedAt := 1, usageCount := 4 }
        9 (some "New") (some "  ") none none).usageCount = 4 ∧
    (updateTemplateFields
        { id := "t1", name := "N", description := "D", category := "general"
          content := "C", createdAt := 1, updatedAt := 1, usageCount := 4 }
        9 (some "New") (some "  ") none none).updatedAt = 9 := by
  have h := updateTemplate_partial
    { id := "t1", name := "N", description := "D", category := "general"
      content := "C", createdAt := 1, updatedAt := 1, usageCount := 4 }
    9 (some "New") (some "  ") none none
  exact ⟨h.2.2.2.2.2.2.1 (Or.inr ⟨"  ", rfl, by decide⟩), h.2.2.1, h.2.2.2.2.1⟩

/-- C6: preview never raises — the state comes back untouched (so no
document is persisted and every usage count is unchanged), a successful
engine run yields the rendered text, a failing one yields a structured
failure carrying the engine's error message, and on success the
rendered text coincides with what live generation produces from the
same `prepareTemplateContext` context for a template with that body. -/
theorem previewTemplate_safe (engine : TemplateEngine) (lib : MomentLib) (now : Nat)
    (st : SysState) (body : String) (a : AlertData) :
    (previewTemplate engine lib now st body a).1 = st ∧
    (∀ s, engine body (prepareTemplateContext lib now a) = .ok s →
      (previewTemplate engine lib now st body a).2.success = true ∧
      (previewTemplate engine lib now st body a).2.content = some s ∧
      (previewTemplate engine lib now st body a).2.error = none) ∧
    (∀ e, engine body (prepareTemplateContext lib now a) = .error e →
      (previewTemplate engine lib now st body a).2.success = false ∧
      (previewTemplate engine lib now st body a).2.error = some e ∧
      (previewTemplate engine lib now st body a).2.content = none) ∧
    (∀ s tid tr docId, engine body (prepareTemplateContext lib now a) = .ok s →
      loadTemplate st.templates tid = some tr → tr.content = body →
      ∃ st2 d, generateDocument engine lib now docId st a tid = .ok (st2, d) ∧
        some d.content = (previewTemplate engine lib now st body a).2.content) := by
  refine ⟨?_, ?_, ?_, ?_⟩
  · cases h : engine body (prepareTemplateContext lib now a) <;>
      simp [previewTemplate, h]
  · intro s h
    simp [previewTemplate, h]
  · intro e h
    simp [previewTemplate, h]
  · intro s tid tr docId h hlt htr
    simp only [generateDocument, hlt, htr, h]
    exact ⟨_, _, rfl, by simp [previewTemplate, h]⟩

/-- C6 witness: a concrete preview with an engine that echoes the
template body succeeds, returns that body, and matches live
generation. -/
theorem previewTemplate_safe_witness :
    (previewTemplate (fun c _ => .ok c)
        ⟨fun _ => "", fun _ => "", fun _ => "", fun _ => ""⟩ 5
        ⟨[{ id := "t1", name := "T", description := "", category := "general"
            content := "x", createdAt := 0, updatedAt := 0, usageCount := 0 }], []⟩
        "x" {}).1 =
      ⟨[{ id := "t1", name := "T", description := "", category := "general"
          content := "x", createdAt := 0, updatedAt := 0, usageCount := 0 }], []⟩ ∧
    (previewTemplate (fun c _ => .ok c)
        ⟨fun _ => "", fun _ => "", fun _ => "", fun _ => ""⟩ 5
        ⟨[{ id := "t1", name := "T", description := "", category := "general"
            content := "x", createdAt := 0, updatedAt := 0, usageCount := 0 }], []⟩
        "x" {}).2.content = some "x" ∧
    (∃ st2 d, generateDocument (fun c _ => .ok c)
        ⟨fun _ => "", fun _ => "", fun _ => "", fun _ => ""⟩ 5 "d1"
        ⟨[{ id := "t1", name := "T", description := "", category := "general"
            content := "x", createdAt := 0, updatedAt := 0, usageCount := 0 }], []⟩
        {} "t1" = .ok (st2, d) ∧
      some d.content =
        (previewTemplate (fun c _ => .ok c)
          ⟨fun _ => "", fun _ => "", fun _ => "", fun _ => ""⟩ 5
          ⟨[{ id := "t1", name := "T", description := "", category := "general"
              content := "x", createdAt := 0, updatedAt := 0, usageCount := 0 }], []⟩
          "x" {}).2.content) := by
  have h := previewTemplate_safe (fun c _ => .ok c)
    ⟨fun _ => "", fun _ => "", fun _ => "", fun _ => ""⟩ 5
    ⟨[{ id := "t1", name := "T", description := "", category := "general"
        content := "x", createdAt := 0, updatedAt := 0, usageCount := 0 }], []⟩
    "x" {}
  exact ⟨h.1, (h.2.1 "x" rfl).2.1,
    h.2.2.2 "x" "t1"
      { id := "t1", name := "T", description := "", category := "general"
        content := "x", createdAt := 0, updatedAt := 0, usageCount := 0 }
      "d1" rfl (by simp [loadTemplate]) rfl⟩

/-- Looking a template up after a usage bump sees the bumped record. -/
theorem loadTemplate_updateUsage (ts : List Template) (tid : String) (now : Nat) :
    loadTemplate (updateTemplateUsage tid now ts) tid =
      (loadTemplate ts tid).map
        (fun t => { t with usageCount := t.usageCount + 1, lastUsed := some now }) := by
  induction ts with
  | nil => rfl
  | cons t rest ih =>
      by_cases ht : (t.id == tid) = true
      · simp [loadTemplate, updateTemplateUsage, List.find?, ht]
      · simp only [Bool.not_eq_true] at ht
        simpa [loadTemplate, updateTemplateUsage, List.find?, ht] using ih

/-- C5: a freshly created template starts at `usageCount = 0`, and each
successful render bumps the stored template's usage count by exactly 1
and stamps `lastUsed` with the render's clock reading — so two
successive renders at non-decreasing clock readings (`moment` never
runs backwards) leave `usageCount + 2` and the later timestamp. -/
theorem render_bumps_usage (engine : TemplateEngine) (lib : MomentLib)
    (now1 now2 : Nat) (docId1 docId2 tid : String) (st : SysState)
    (t : Template) (a1 a2 : AlertData)
    (ht : loadTemplate st.templates tid = some t)
    (hr1 : ∃ s, engine t.content (prepareTemplateContext lib now1 a1) = .ok s)
    (hr2 : ∃ s, engine t.content (prepareTemplateContext lib now2 a2) = .ok s)
    (hle : now1 ≤ now2) :
    (∀ fid n nm ds cat ct tpl, createTemplate fid n nm ds cat ct = .ok tpl →
      tpl.usageCount = 0) ∧
    ∃ st1 d1, generateDocument engine lib now1 docId1 st a1 tid = .ok (st1, d1) ∧
    ∃ t1, loadTemplate st1.templates tid = some t1 ∧
      t1.usageCount = t.usageCount + 1 ∧ t1.lastUsed = some now1 ∧
      t1.content = t.content ∧
    ∃ st2 d2, generateDocument engine lib now2 docId2 st1 a2 tid = .ok (st2, d2) ∧
    ∃ t2, loadTemplate st2.templates tid = some t2 ∧
      t2.usageCount = t.usageCount + 2 ∧ t2.lastUsed = some now2 ∧
      now1 ≤ now2 := by
  obtain ⟨s1, hs1⟩ := hr1
  obtain ⟨s2, hs2⟩ := hr2
  constructor
  · intro fid n nm ds cat ct tpl hcr
    unfold createTemplate at hcr
    by_cases hname : (!jsTruthy nm || !jsTruthy ct) = true
    · simp [hname] at hcr
    · simp [hname] at hcr
      rw [← hcr]
  · simp only [generateDocument, ht, hs1]
    refine ⟨_, _, rfl, ?_⟩
    have ht1 : loadTemplate (updateTemplateUsage tid now1 st.templates) tid =
        some { t with usageCount := t.usageCount + 1, lastUsed := some now1 } := by
      rw [loadTemplate_updateUsage, ht]
      rfl
    refine ⟨_, ht1, rfl, rfl, rfl, ?_⟩
    simp only [generateDocument, ht1, hs2]
    refine ⟨_, _, rfl, ?_⟩
    have ht2 : loadTemplate
        (updateTemplateUsage tid now2 (updateTemplateUsage tid now1 st.templates)) tid =
        some { t with usageCount := t.usageCount + 2, lastUsed := some now2 } := by
      rw [loadTemplate_updateUsage, ht1]
      rfl
    exact ⟨_, ht2, rfl, rfl, hle⟩

/-- C5 witness: two concrete renders of a fresh template at clock
readings 3 and 7 leave usage counts 1 then 2 and the later timestamp. -/
theorem render_bumps_usage_witness :
    ∃ st1 d1, generateDocument (fun c _ => .ok c)
        ⟨fun _ => "", fun _ => "", fun _ => "", fun _ => ""⟩ 3 "d1"
        ⟨[{ id := "t1", name := "T", description := "", category := "general"
            content := "x", createdAt := 0, updatedAt := 0, usageCount := 0 }], []⟩
        {} "t1" = .ok (st1, d1) ∧
    ∃ t1, loadTemplate st1.templates "t1" = some t1 ∧
      t1.usageCount = 1 ∧ t1.lastUsed = some 3 ∧ t1.content = "x" ∧
    ∃ st2 d2, generateDocument (fun c _ => .ok c)
        ⟨fun _ => "", fun _ => "", fun _ => "", fun _ => ""⟩ 7 "d2" st1 {} "t1" =
          .ok (st2, d2) ∧
    ∃ t2, loadTemplate st2.templates "t1" = some t2 ∧
      t2.usageCount = 2 ∧ t2.lastUsed = some 7 ∧ (3 : Nat) ≤ 7 := by
  have h := render_bumps_usage (fun c _ => .ok c)
    ⟨fun _ => "", fun _ => "", fun _ => "", fun _ => ""⟩ 3 7 "d1" "d2" "t1"
    ⟨[{ id := "t1", name := "T", description := "", category := "general"
        content := "x", createdAt := 0, updatedAt := 0, usageCount := 0 }], []⟩
    { id := "t1", name := "T", description := "", category := "general"
      content := "x", createdAt := 0, updatedAt := 0, usageCount := 0 }
    {} {} (by simp [loadTemplate]) ⟨"x", rfl⟩ ⟨"x", rfl⟩ (by decide)
  exact h.2

/-! ## Pending-map lemmas and the dedup invariant -/

/-- Every element of `mapSet st p` is `p` or an element of `st`. -/
theorem mem_mapSet {st : List PendingAlert} {p x : PendingAlert}
    (hx : x ∈ mapSet st p) : x = p ∨ x ∈ st := by
  unfold mapSet at hx
  split at hx
  · obtain ⟨q, hq, hfq⟩ := List.mem_map.mp hx
    by_cases hqp : (q.id == p.id) = true
    · rw [if_pos hqp] at hfq
      exact Or.inl hfq.symm
    · rw [if_neg hqp] at hfq
      exact Or.inr (hfq ▸ hq)
  · rcases List.mem_append.mp hx with h | h
    · exact Or.inr h
    · exact Or.inl (List.mem_singleton.mp h)

/-- A fingerprint carried by no pending alert is not found. -/
theorem find?_hash_none {st : List PendingAlert} {h : HashData}
    (hne : ∀ q ∈ st, q.alertHash ≠ h) :
    st.find? (fun a => a.alertHash == h) = none :=
  List.find?_eq_none.mpr (fun q hq => by simpa using hne q hq)

/-- After appending `p` to a map free of its fingerprint, the
fingerprint lookup finds exactly `p`. -/
theorem find?_append_self {st : List PendingAlert} {p : PendingAlert}
    (hne : ∀ q ∈ st, q.alertHash ≠ p.alertHash) :
    (st ++ [p]).find? (fun a => a.alertHash == p.alertHash) = some p := by
  induction st with
  | nil => simp [List.find?]
  | cons q t ih =>
      have hqh : (q.alertHash == p.alertHash) = false := by
        simpa using hne q (List.mem_cons_self q t)
      simpa [List.find?, hqh] using ih (fun x hx => hne x (List.mem_cons_of_mem q hx))

/-- Same for the in-place overwrite branch of `mapSet`. -/
theorem find?_replace_self {p : PendingAlert} :
    ∀ st : List PendingAlert, st.any (fun q => q.id == p.id) = true →
    (∀ q ∈ st, q.alertHash ≠ p.alertHash) →
    (st.map (fun q => if q.id == p.id then p else q)).find?
      (fun a => a.alertHash == p.alertHash) = some p := by
  intro st
  induction st with
  | nil => intro hany _; simp at hany
  | cons q t ih =>
      intro hany hne
      by_cases hq : (q.id == p.id) = true
      · simp [List.find?, hq]
      · have hqh : (q.alertHash == p.alertHash) = false := by
          simpa using hne q (List.mem_cons_self q t)
        have hany2 : t.any (fun x => x.id == p.id) = true := by
          simpa [hq] using hany
        simpa [List.find?, hq, hqh] using
          ih hany2 (fun x hx => hne x (List.mem_cons_of_mem q hx))

/-- After a `mapSet` of `p` into a map free of its fingerprint, the
fingerprint lookup finds exactly `p`. -/
theorem find?_mapSet_self {st : List PendingAlert} {p : PendingAlert} {h : HashData}
    (hp : p.alertHash = h) (hne : ∀ q ∈ st, q.alertHash ≠ h) :
    (mapSet st p).find? (fun a => a.alertHash == h) = some p := by
  subst hp
  unfold mapSet
  by_cases hany : st.any (fun q => q.id == p.id) = true
  · rw [if_pos hany]
    exact find?_replace_self st hany hne
  · rw [if_neg hany]
    exact find?_append_self hne

/-- The overwrite branch of `mapSet` preserves well-formedness when the
incoming fingerprint is fresh. -/
theorem pendingWF_replace {p : PendingAlert} :
    ∀ st : List PendingAlert, PendingWF st →
    (∀ q ∈ st, q.alertHash ≠ p.alertHash) →
    PendingWF (st.map (fun q => if q.id == p.id then p else q)) := by
  intro st
  induction st with
  | nil => intro _ _; exact List.Pairwise.nil
  | cons q t ih =>
      intro hWF hne
      obtain ⟨hq, hWFt⟩ := List.pairwise_cons.mp hWF
      have hnet : ∀ x ∈ t, x.alertHash ≠ p.alertHash :=
        fun x hx => hne x (List.mem_cons_of_mem q hx)
      by_cases hqid : (q.id == p.id) = true
      · have hqp : q.id = p.id := by simpa using hqid
        have hmap : t.map (fun x => if x.id == p.id then p else x) = t := by
          have hpt : ∀ x ∈ t, (if x.id == p.id then p else x) = x := by
            intro x hx
            have hxne : (x.id == p.id) ≠ true := by
              intro hxp
              have hx2 : x.id = p.id := by simpa using hxp
              exact (hq x hx).1 (hqp.trans hx2.symm)
            rw [if_neg hxne]
          rw [List.map_congr_left hpt]
          simp
        simp only [List.map_cons, if_pos hqid, hmap]
        refine List.pairwise_cons.mpr ⟨?_, hWFt⟩
        intro x hx
        exact ⟨fun hpx => (hq x hx).1 (by rw [hqp, hpx]), (hnet x hx).symm⟩
      · simp only [List.map_cons, if_neg hqid]
        refine List.pairwise_cons.mpr ⟨?_, ih hWFt hnet⟩
        intro y hy
        obtain ⟨x, hx, hfx⟩ := List.mem_map.mp hy
        by_cases hxid : (x.id == p.id) = true
        · rw [if_pos hxid] at hfx
          subst hfx
          exact ⟨by simpa using hqid, hne q (List.mem_cons_self q t)⟩
        · rw [if_neg hxid] at hfx
          subst hfx
          exact hq x hx
      
/-- `mapSet` preserves well-formedness when the incoming fingerprint is
carried by no stored alert. -/
theorem pendingWF_mapSet {st : List PendingAlert} {p : PendingAlert}
    (hWF : PendingWF st) (hne : ∀ q ∈ st, q.alertHash ≠ p.alertHash) :
    PendingWF (mapSet st p) := by
  unfold mapSet
  by_cases hany : st.any (fun q => q.id == p.id) = true
  · rw [if_pos hany]
    exact pendingWF_replace st hWF hne
  · rw [if_neg hany]
    have hany0 : st.any (fun q => q.id == p.id) = false := by
      simpa using hany
    have hids : ∀ q ∈ st, q.id ≠ p.id := by
      intro q hq
      simpa using List.any_eq_false.mp hany0 q hq
    refine List.pairwise_append.mpr ⟨hWF, List.pairwise_singleton _ _, ?_⟩
    intro a ha b hb
    rw [List.mem_singleton.mp hb]
    exact ⟨hids a ha, hne a ha⟩

/-- In a well-formed map the id lookup of a stored alert finds it. -/
theorem find?_id_of_WF {p : PendingAlert} :
    ∀ st : List PendingAlert, PendingWF st → p ∈ st →
    st.find? (fun a => a.id == p.id) = some p := by
  intro st
  induction st with
  | nil => intro _ hp; simp at hp
  | cons q t ih =>
      intro hWF hp
      obtain ⟨hq, hWFt⟩ := List.pairwise_cons.mp hWF
      rcases List.mem_cons.mp hp with rfl | hp2
      · simp [List.find?]
      · have hqp : (q.id == p.id) = false := by
          simpa using (hq p hp2).1
        simpa [List.find?, hqp] using ih hWFt hp2

/-- C1 counterexample: two normalized alerts with differing titles
`""` and `"untitled"` — identical alertType, no org or source id, same
bucket, the first still pending — are deduplicated as the same alert:
the fallback `title || event_title || 'untitled'` resolves the falsy
empty title to `"untitled"`, the fingerprints coincide, and the second
call returns the first alertId with `duplicate = true` instead of a
different id. -/
theorem dedup_title_fallback_counterexample :
    ({ alert_type := some "error", title := some "" } : AlertData).title ≠
      ({ alert_type := some "error", title := some "untitled" } : AlertData).title ∧
    (webhookDedupStore 7 "id1" "t1" []
        { alert_type := some "error", title := some "" }).2 =
      { alertId := "id1", duplicate := false } ∧
    (webhookDedupStore 7 "id2" "t2"
        (webhookDedupStore 7 "id1" "t1" []
          { alert_type := some "error", title := some "" }).1
        { alert_type := some "error", title := some "untitled" }).2 =
      { alertId := "id1", duplicate := true } := by
  decide

/-- C1 (amended): for two ingests into a pending map not yet carrying
the first alert's fingerprint, within the same 5-minute bucket: when
the normalized alerts agree on alertType, title, event title, org and
source id, the first call stores a new pending entry and answers with
the fresh id and no duplicate flag, and the second call answers with
the same id and `duplicate = true` while leaving the map unchanged;
when instead the two resolved titles (`title || event_title ||
'untitled'`, empty strings being falsy) differ and the second
fingerprint is also new, the second call answers with its own fresh id
and no duplicate flag. -/
theorem dedup_within_bucket_amended (tw : Nat) (st : List PendingAlert)
    (a1 a2 : AlertData) (id1 id2 ts1 ts2 : String)
    (hfresh : ∀ q ∈ st, q.alertHash ≠ generateAlertHash tw a1) :
    ((a1.alert_type = a2.alert_type ∧ a1.title = a2.title ∧
      a1.event_title = a2.event_title ∧ a1.org = a2.org ∧ a1.id = a2.id) →
      (webhookDedupStore tw id1 ts1 st a1).2 = { alertId := id1, duplicate := false } ∧
      webhookDedupStore tw id2 ts2 (webhookDedupStore tw id1 ts1 st a1).1 a2 =
        ((webhookDedupStore tw id1 ts1 st a1).1, { alertId := id1, duplicate := true })) ∧
    (jsOr2D a1.title a1.event_title "untitled" ≠ jsOr2D a2.title a2.event_title "untitled" →
      (∀ q ∈ st, q.alertHash ≠ generateAlertHash tw a2) →
      (webhookDedupStore tw id2 ts2 (webhookDedupStore tw id1 ts1 st a1).1 a2).2 =
        { alertId := id2, duplicate := false }) := by
  have hf1 : st.find? (fun a => a.alertHash == generateAlertHash tw a1) = none :=
    find?_hash_none hfresh
  constructor
  · intro hsame
    obtain ⟨h1, h2, h3, h4, h5⟩ := hsame
    have hhash : generateAlertHash tw a2 = generateAlertHash tw a1 := by
      simp [generateAlertHash, h1, h2, h3, h4, h5]
    have hfound :
        (mapSet st
          { id := id1, timestamp := ts1, alertHash := generateAlertHash tw a1
            originalPayload := a1, status := "pending_template_selection" }).find?
          (fun a => a.alertHash == generateAlertHash tw a2) =
          some { id := id1, timestamp := ts1, alertHash := generateAlertHash tw a1
                 originalPayload := a1, status := "pending_template_selection" } := by
      rw [hhash]
      exact find?_mapSet_self rfl hfresh
    refine ⟨by simp [webhookDedupStore, hf1], ?_⟩
    simp only [webhookDedupStore, hf1]
    rw [hfound]
  · intro hdiff hfresh2
    have hhashne : generateAlertHash tw a2 ≠ generateAlertHash tw a1 := by
      intro hEq
      have htitle : (generateAlertHash tw a2).title = (generateAlertHash tw a1).title := by
        rw [hEq]
      simp only [generateAlertHash] at htitle
      exact hdiff htitle.symm
    have hnone :
        (mapSet st
          { id := id1, timestamp := ts1, alertHash := generateAlertHash tw a1
            originalPayload := a1, status := "pending_template_selection" }).find?
          (fun a => a.alertHash == generateAlertHash tw a2) = none := by
      apply List.find?_eq_none.mpr
      intro x hx
      rcases mem_mapSet hx with rfl | hx2
      · simpa using hhashne.symm
      · simpa using hfresh2 x hx2
    simp only [webhookDedupStore, hf1]
    rw [hnone]

/-- C1 witness: two identical concrete ingests into an empty map share
the first id with the duplicate flag, and a title resolving differently
yields the second fresh id. -/
theorem dedup_within_bucket_amended_witness :
    (webhookDedupStore 7 "id1" "t1" [] { alert_type := some "error", title := some "A" }).2 =
      { alertId := "id1", duplicate := false } ∧
    (webhookDedupStore 7 "id2" "t2"
        (webhookDedupStore 7 "id1" "t1" []
          { alert_type := some "error", title := some "A" }).1
        { alert_type := some "error", title := some "A" }).2 =
      { alertId := "id1", duplicate := true } ∧
    (webhookDedupStore 7 "id2" "t2"
        (webhookDedupStore 7 "id1" "t1" []
          { alert_type := some "error", title := some "A" }).1
        { alert_type := some "error", title := some "B" }).2 =
      { alertId := "id2", duplicate := false } := by
  have hsame := dedup_within_bucket_amended 7 []
    { alert_type := some "error", title := some "A" }
    { alert_type := some "error", title := some "A" }
    "id1" "id2" "t1" "t2" (by simp)
  have hdiff := dedup_within_bucket_amended 7 []
    { alert_type := some "error", title := some "A" }
    { alert_type := some "error", title := some "B" }
    "id1" "id2" "t1" "t2" (by simp)
  obtain ⟨hr1, hr2⟩ := hsame.1 ⟨rfl, rfl, rfl, rfl, rfl⟩
  refine ⟨hr1, by rw [hr2], ?_⟩
  exact hdiff.2 (by decide) (by simp)

/-- Every webhook request preserves well-formedness of the pending map. -/
theorem pendingWF_step {s s2 : ServerState} (hWF : PendingWF s.pending)
    (hstep : ServerStep s s2) : PendingWF s2.pending := by
  cases hstep with
  | ingest tw freshId tsIso body s =>
      simp only [ingestRoute, webhookIngest]
      cases hpb : parseWebhookBody tsIso body with
      | error e => exact hWF
      | ok alert =>
          simp only [webhookDedupStore]
          cases hf : s.pending.find? (fun a => a.alertHash == generateAlertHash tw alert) with
          | some ex => exact hWF
          | none =>
              apply pendingWF_mapSet hWF
              intro q hq
              simpa using List.find?_eq_none.mp hf q hq
  | process engine lib now docId alertId templateId s =>
      simp only [processRoute]
      by_cases htid : (!jsTruthy templateId) = true
      · rw [if_pos htid]
        exact hWF
      · rw [if_neg htid]
        cases hf : s.pending.find? (fun a => a.id == alertId) with
        | none => exact hWF
        | some alertData =>
            dsimp only
            cases hg : generateDocument engine lib now docId s.sys
                alertData.originalPayload (templateId.getD "") with
            | error e => exact hWF
            | ok r =>
                obtain ⟨sys2, doc⟩ := r
                exact hWF.sublist (List.filter_sublist s.pending)

/-- C7: in every state reachable from an empty pending map by webhook
requests, no two currently-pending alerts carry the same dedup
fingerprint. -/
theorem pending_fingerprints_unique (ts : List Template) (ds : List DocumentRec)
    (s : ServerState) (hreach : ServerReachable ⟨[], ⟨ts, ds⟩⟩ s) :
    s.pending.Pairwise (fun a b => a.alertHash ≠ b.alertHash) := by
  have hWF : PendingWF s.pending := by
    induction hreach with
    | refl => exact List.Pairwise.nil
    | tail hsteps hstep ih => exact pendingWF_step ih hstep
  exact hWF.imp (fun h => h.2)

/-- C7 witness: after one concrete ingest from the empty state the
pending fingerprints are pairwise distinct. -/
theorem pending_fingerprints_unique_witness :
    ((ingestRoute 0 "a1" "t" ⟨[], ⟨[], []⟩⟩ (.text "hello")).1).pending.Pairwise
      (fun a b => a.alertHash ≠ b.alertHash) :=
  pending_fingerprints_unique [] [] _
    (Relation.ReflTransGen.single (ServerStep.ingest 0 "a1" "t" (.text "hello") _))

/-- When the incoming id is fresh, `mapSet` is an append. -/
theorem mapSet_append {st : List PendingAlert} {p : PendingAlert}
    (hids : ∀ q ∈ st, q.id ≠ p.id) : mapSet st p = st ++ [p] := by
  unfold mapSet
  have hany : st.any (fun q => q.id == p.id) = false := by
    apply List.any_eq_false.mpr
    intro q hq
    simpa using hids q hq
  simp [hany]

/-- C9: dedup consults only the pending map.  Once the (unique) pending
alert carrying a fingerprint has been processed — which removes it from
the map — re-ingesting an alert with the same fingerprint in the same
5-minute bucket is not reported as a duplicate: it stores a new pending
entry under the fresh uuid and answers without the duplicate flag. -/
theorem reingest_after_process (engine : TemplateEngine) (lib : MomentLib)
    (now tw : Nat) (docId tid freshId ts2 : String)
    (st : List PendingAlert) (sys : SysState) (p : PendingAlert) (a : AlertData)
    (hWF : PendingWF st) (hp : p ∈ st)
    (hhash : p.alertHash = generateAlertHash tw a)
    (htid : tid ≠ "")
    (hfid : ∀ q ∈ st, q.id ≠ freshId)
    (hgen : ∃ r, generateDocument engine lib now docId sys p.originalPayload tid = .ok r) :
    (processRoute engine lib now docId ⟨st, sys⟩ p.id (some tid)).1.pending =
      st.filter (fun x => x.id != p.id) ∧
    (webhookDedupStore tw freshId ts2 (st.filter (fun x => x.id != p.id)) a).2 =
      { alertId := freshId, duplicate := false } ∧
    (webhookDedupStore tw freshId ts2 (st.filter (fun x => x.id != p.id)) a).1 =
      st.filter (fun x => x.id != p.id) ++
        [{ id := freshId, timestamp := ts2, alertHash := generateAlertHash tw a
           originalPayload := a, status := "pending_template_selection" }] := by
  have htidT : ¬((!jsTruthy (some tid)) = true) := by
    simp [jsTruthy, htid]
  have hfind : st.find? (fun x => x.id == p.id) = some p :=
    find?_id_of_WF st hWF hp
  obtain ⟨r, hg⟩ := hgen
  obtain ⟨sys2, doc⟩ := r
  have hnone :
      (st.filter (fun x => x.id != p.id)).find?
        (fun q => q.alertHash == generateAlertHash tw a) = none := by
    apply List.find?_eq_none.mpr
    intro q hq
    obtain ⟨hqst, hqid⟩ := List.mem_filter.mp hq
    have hqne : q ≠ p := by
      intro hqp
      rw [hqp] at hqid
      simp at hqid
    have hsym : Symmetric (fun x y : PendingAlert => x.alertHash ≠ y.alertHash) :=
      fun _ _ hxy => hxy.symm
    have := (hWF.imp (fun h => h.2)).forall hsym hqst hp hqne
    rw [hhash] at this
    simpa using this
  refine ⟨?_, ?_, ?_⟩
  · simp only [processRoute]
    rw [if_neg htidT]
    rw [hfind]
    dsimp only
    simp only [Option.getD_some]
    rw [hg]
  · simp only [webhookDedupStore]
    rw [hnone]
  · simp only [webhookDedupStore]
    rw [hnone]
    dsimp only
    apply mapSet_append
    intro q hq
    exact hfid q (List.mem_filter.mp hq).1

/-- C9 witness: after the only pending holder of a fingerprint is
processed, re-ingesting the same alert in the same bucket answers with
the fresh id and no duplicate flag. -/
theorem reingest_after_process_witness :
    (webhookDedupStore 5 "a2" "t2"
        (List.filter (fun x => x.id != "a1")
          [{ id := "a1", timestamp := "t0", alertHash := generateAlertHash 5 {}
             originalPayload := {}, status := "pending_template_selection" }])
        {}).2 =
      { alertId := "a2", duplicate := false } := by
  have h := reingest_after_process (fun c _ => .ok c)
    ⟨fun _ => "", fun _ => "", fun _ => "", fun _ => ""⟩ 1 5 "d1" "t1" "a2" "t2"
    [{ id := "a1", timestamp := "t0", alertHash := generateAlertHash 5 {}
       originalPayload := {}, status := "pending_template_selection" }]
    ⟨[{ id := "t1", name := "T", description := "", category := "general"
        content := "x", createdAt := 0, updatedAt := 0, usageCount := 0 }], []⟩
    { id := "a1", timestamp := "t0", alertHash := generateAlertHash 5 {}
      originalPayload := {}, status := "pending_template_selection" }
    {}
    (List.pairwise_singleton _ _) (by simp) rfl (by decide) (by decide) ⟨_, rfl⟩
  exact h.2.1

/-- C8 counterexample: a stored document whose source alert serializes
with the word `"zebra"` satisfies the claimed match rule for the query
`"zebra"`, yet the server search returns nothing — it matches only
title, content and alertType, never the serialized source alert. -/
theorem searchDocuments_counterexample :
    specClaimSearchMatch
      { id := "d1", title := "Report", content := "All good", alertType := "info"
        priority := "medium", status := "generated", templateId := "t1"
        templateName := "T", originalAlert := { message := some "zebra incident" }
        createdAt := 5, updatedAt := 5 } "zebra" = true ∧
    searchDocuments
      [{ id := "d1", title := "Report", content := "All good", alertType := "info"
         priority := "medium", status := "generated", templateId := "t1"
         templateName := "T", originalAlert := { message := some "zebra incident" }
         createdAt := 5, updatedAt := 5 }] "zebra" = [] := by
  decide

/-- Membership through the insertion step of the newest-first sort. -/
theorem mem_insertByCreatedDesc {h x : SearchHit} {l : List SearchHit} :
    x ∈ insertByCreatedDesc h l ↔ x = h ∨ x ∈ l := by
  induction l with
  | nil => simp [insertByCreatedDesc]
  | cons y ys ih =>
      by_cases hc : y.createdAt ≤ h.createdAt
      · simp [insertByCreatedDesc, hc]
      · simp [insertByCreatedDesc, hc, ih]
        tauto

/-- The newest-first sort preserves membership. -/
theorem mem_sortByCreatedDesc {x : SearchHit} {l : List SearchHit} :
    x ∈ sortByCreatedDesc l ↔ x ∈ l := by
  induction l with
  | nil => simp [sortByCreatedDesc]
  | cons y ys ih =>
      have hstep : sortByCreatedDesc (y :: ys) =
          insertByCreatedDesc y (sortByCreatedDesc ys) := rfl
      rw [hstep, mem_insertByCreatedDesc, ih, List.mem_cons]

/-- C8 (amended): the server search returns exactly the documents for
which the lowercased query is a substring of the lowercased
space-joined title, content and alertType — the serialized source
alert is not searched — each as a hit carrying a snippet of the first
200 content characters plus an ellipsis; the Netlify variant returns
exactly the stored documents (unchanged, without snippets) matching on
title, content, or the serialized truthy `alert_data`. -/
theorem search_amended :
    (∀ (docs : List DocumentRec) (q : String) (h : SearchHit),
      h ∈ searchDocuments docs q ↔
        ∃ d, d ∈ docs ∧
          jsIncludes (strLower (d.title ++ " " ++ d.content ++ " " ++ d.alertType))
            (strLower q) = true ∧
          h = { id := d.id, title := d.title, alertType := d.alertType
                templateName := d.templateName, createdAt := d.createdAt
                priority := d.priority, status := d.status
                snippet := strTake d.content 200 ++ "..." }) ∧
    (∀ (docs : List NetlifyDoc) (q : String) (d : NetlifyDoc),
      d ∈ netlifySearchDocs docs q ↔
        d ∈ docs ∧
          (jsIncludes (strLower d.title) (strLower q) ||
           jsIncludes (strLower d.content) (strLower q) ||
           (match d.alert_data with
            | some j => jsonTruthy j && jsIncludes (strLower (jsonStringify j)) (strLower q)
            | none => false)) = true) := by
  constructor
  · intro docs q h
    unfold searchDocuments
    rw [mem_sortByCreatedDesc]
    simp only [List.mem_map, List.mem_filter]
    constructor
    · rintro ⟨d, ⟨hd, hmatch⟩, rfl⟩
      exact ⟨d, hd, hmatch, rfl⟩
    · rintro ⟨d, hd, hmatch, rfl⟩
      exact ⟨d, ⟨hd, hmatch⟩, rfl⟩
  · intro docs q d
    unfold netlifySearchDocs
    rw [List.mem_filter]

/-- C8 witness: a concrete query matching on content is returned by the
server search as the expected snippet-carrying hit, and a concrete
Netlify document matching only through its serialized `alert_data` is
returned unchanged. -/
theorem search_amended_witness :
    ({ id := "d1", title := "Report", alertType := "info", templateName := "T"
       createdAt := 5, priority := "medium", status := "generated"
       snippet := "All good..." } : SearchHit) ∈
      searchDocuments
        [{ id := "d1", title := "Report", content := "All good", alertType := "info"
           priority := "medium", status := "generated", templateId := "t1"
           templateName := "T", originalAlert := {}, createdAt := 5, updatedAt := 5 }]
        "all" ∧
    ({ id := "n1", title := "Note", content := "ok"
       alert_data := some (.obj [("m", .str "zebra")]) } : NetlifyDoc) ∈
      netlifySearchDocs
        [{ id := "n1", title := "Note", content := "ok"
           alert_data := some (.obj [("m", .str "zebra")]) }] "zebra" := by
  have h := search_amended
  constructor
  · exact (h.1
      [{ id := "d1", title := "Report", content := "All good", alertType := "info"
         priority := "medium", status := "generated", templateId := "t1"
         templateName := "T", originalAlert := {}, createdAt := 5, updatedAt := 5 }]
      "all"
      { id := "d1", title := "Report", alertType := "info", templateName := "T"
        createdAt := 5, priority := "medium", status := "generated"
        snippet := "All good..." }).mpr
      ⟨{ id := "d1", title := "Report", content := "All good", alertType := "info"
         priority := "medium", status := "generated", templateId := "t1"
         templateName := "T", originalAlert := {}, createdAt := 5, updatedAt := 5 },
       by simp, by decide, by decide⟩
  · exact (h.2
      [{ id := "n1", title := "Note", content := "ok"
         alert_data := some (.obj [("m", .str "zebra")]) }]
      "zebra"
      { id := "n1", title := "Note", content := "ok"
        alert_data := some (.obj [("m", .str "zebra")]) }).mpr
      ⟨by simp, by decide⟩
